import Mathlib

/-!
Shallow embedding of the assets CRUD backend (src/main.py) together with the
pieces of its persistence adapter (database.py) and payload schema
(schemas.py) that the route handlers use.  The document store is modelled as
a list of documents in the single collection named asset, identifiers are
24-character hexadecimal strings as produced by the BSON ObjectId
constructor, and HTTP exceptions are values of an error type.
-/

set_option autoImplicit false

namespace AssetsApi

/-- A stored document in the asset collection.  Every field other than the
store-assigned identifier is optional, mirroring a schemaless document:
`doc.get(key)` in the source yields `None` when the key is absent. -/
structure Doc where
  oid : String
  title : Option String
  image_url : Option String
  prompt : Option String
  is_active : Option Bool
  updated_at : Option Nat
deriving DecidableEq

/-- The document store: the asset collection in insertion order, plus a
counter from which fresh identifiers are generated. -/
structure Store where
  asset : List Doc
  nextId : Nat
deriving DecidableEq

/-- The error taxonomy of the route layer.  The first four correspond to the
HTTPException cases raised in main.py; serverError stands for an unhandled
exception (for example a pydantic validation failure inside
_serialize_asset), which the framework surfaces as HTTP 500. -/
inductive ApiError where
  | storeUnavailable
  | invalidIdentifier
  | badRequest
  | notFound
  | serverError
deriving DecidableEq

/-- HTTP status code of each error. -/
def statusCode : ApiError → Nat
  | ApiError.storeUnavailable => 500
  | ApiError.invalidIdentifier => 400
  | ApiError.badRequest => 400
  | ApiError.notFound => 404
  | ApiError.serverError => 500

/-- The serialized output shape AssetOut of main.py: exactly five fields. -/
structure AssetOut where
  id : String
  title : String
  image_url : String
  prompt : String
  is_active : Bool
deriving DecidableEq

/-- _serialize_asset of main.py.  AssetOut requires title, image_url and
prompt to be strings, so passing a document that lacks one of them makes the
pydantic constructor raise; this is modelled by returning none.
is_active defaults to true via `doc.get("is_active", True)`. -/
def serialize_asset (doc : Doc) : Option AssetOut :=
  match doc.title, doc.image_url, doc.prompt with
  | some t, some u, some p =>
      some { id := doc.oid, title := t, image_url := u, prompt := p,
             is_active := doc.is_active.getD true }
  | _, _, _ => none

/-- The handler pattern `_serialize_asset(doc)` applied to the result of a
find_one call: when the lookup produced no document the Python code calls
`_serialize_asset(None)`, which raises (AttributeError on NoneType), an
unhandled server error. -/
def serialize_lookup (d : Option Doc) : Except ApiError AssetOut :=
  match d with
  | none => Except.error ApiError.serverError
  | some doc =>
      match serialize_asset doc with
      | some out => Except.ok out
      | none => Except.error ApiError.serverError

/-- A list comprehension `[_serialize_asset(doc) for doc in docs]`: the first
document that fails to serialize aborts the whole response with an unhandled
server error. -/
def serializeAll (docs : List Doc) : Except ApiError (List AssetOut) :=
  match docs.mapM serialize_asset with
  | some outs => Except.ok outs
  | none => Except.error ApiError.serverError

/-- Hexadecimal digit test used by the ObjectId constructor. -/
def isHexDigitChar (c : Char) : Bool :=
  c.isDigit || (97 ≤ c.toNat && c.toNat ≤ 102) || (65 ≤ c.toNat && c.toNat ≤ 70)

/-- Validity of an identifier string for `ObjectId(asset_id)`: a string is
accepted exactly when it is 24 hexadecimal characters; anything else raises
InvalidId. -/
def isValidObjectId (s : String) : Bool :=
  s.length == 24 && s.data.all isHexDigitChar

/-- Lower-casing of one ASCII character. -/
def lowerChar (c : Char) : Char :=
  if 65 ≤ c.toNat && c.toNat ≤ 90 then Char.ofNat (c.toNat + 32) else c

/-- The canonical (lower-case) rendering of a hexadecimal identifier:
str(ObjectId(s)) always prints lower-case hex. -/
def lowerHex (s : String) : String :=
  String.mk (s.data.map lowerChar)

/-- `ObjectId(asset_id)` in the handlers: some canonical (lower-case)
identifier on a valid 24-hex-character string, none when the constructor
raises. -/
def parseObjectId (s : String) : Option String :=
  if isValidObjectId s then some (lowerHex s) else none

/-- Fresh identifier for the n-th inserted document: the counter rendered as
lower-case hexadecimal, zero-padded to 24 characters. -/
def genId (n : Nat) : String :=
  let ds := Nat.toDigits 16 n
  String.mk (List.replicate (24 - ds.length) '0' ++ ds)

/-- An insert payload: the fields of a document to be created (the demo
dictionaries of the seed route and the Asset create payload). -/
structure AssetIn where
  title : Option String
  image_url : Option String
  prompt : Option String
  is_active : Option Bool
deriving DecidableEq

/-- Modelled from the spec: `create_document` from database.py (not under
src/) is `create(collection, record)` of the persistence adapter, which
inserts one record into the named collection and returns the generated
identifier; the side effect is one new document. -/
def create_document (s : Store) (rec : AssetIn) : String × Store :=
  let iid := genId s.nextId
  (iid,
   { asset := s.asset ++
       [{ oid := iid, title := rec.title, image_url := rec.image_url,
          prompt := rec.prompt, is_active := rec.is_active, updated_at := none }],
     nextId := s.nextId + 1 })

/-- The demo image URL of the seed route. -/
def demoImageUrl : String :=
  "https://images.unsplash.com/photo-1518779578993-ec3579fee39f?w=800&q=80&auto=format&fit=crop"

/-- The demo prompt of the seed route. -/
def demoPromptText : String :=
  "A futuristic UI with glowing panels and soft gradients"

/-- One demo dictionary from the seed route of main.py. -/
def demoAsset (i : Nat) : AssetIn :=
  { title := some (String.append "Sample #" (toString (i + 1))),
    image_url := some demoImageUrl,
    prompt := some demoPromptText,
    is_active := some true }

/-- The demo list `[{...} for i in range(8)]` of the seed route. -/
def demoList : List AssetIn :=
  (List.range 8).map demoAsset

/-- seed_assets of main.py.  The pair carries the HTTP result and the store
as left behind by the handler (none when the handle was null). -/
def seed_assets (db : Option Store) : Except ApiError (List AssetOut) × Option Store :=
  match db with
  | none => (Except.error ApiError.storeUnavailable, none)
  | some s =>
      if s.asset.isEmpty then
        let s2 := demoList.foldl (fun st d => (create_document st d).2) s
        (serializeAll (s2.asset.take 24), some s2)
      else
        (serializeAll (s.asset.take 24), some s)

/-- Modelled from the spec: the AssetUpdate patch payload from schemas.py
(not under src/); every field is optional.  The outer Option records whether
the field was set at all (pydantic exclude_unset), the inner Option whether
it was set to null. -/
structure AssetUpdate where
  title : Option (Option String)
  image_url : Option (Option String)
  prompt : Option (Option String)
  is_active : Option (Option Bool)
deriving DecidableEq

/-- The effective field set of a PATCH request: the dictionary comprehension
`\x7bk: v for k, v in patch.model_dump(exclude_unset=True).items() if v is not None\x7d`
of main.py.  A field survives exactly when it was set and non-null. -/
structure UpdateData where
  title : Option String
  image_url : Option String
  prompt : Option String
  is_active : Option Bool
deriving DecidableEq

/-- Builds the effective field set of a patch payload. -/
def effectiveFields (p : AssetUpdate) : UpdateData :=
  { title := p.title.bind id, image_url := p.image_url.bind id,
    prompt := p.prompt.bind id, is_active := p.is_active.bind id }

/-- The `if not update_data` emptiness test of main.py. -/
def isEmptyUpdate (u : UpdateData) : Bool :=
  u.title.isNone && u.image_url.isNone && u.prompt.isNone && u.is_active.isNone

/-- One field of a MongoDB $set: a present update value overwrites, an absent
one leaves the stored value untouched. -/
def setField {α : Type} : Option α → Option α → Option α
  | some v, _ => some v
  | none, old => old

/-- Applies `$set` of the effective field set plus updated_at = now to one
document (line 127-128 of main.py adds updated_at to update_data before the
store call). -/
def applySet (d : Doc) (u : UpdateData) (now : Nat) : Doc :=
  { d with title := setField u.title d.title,
           image_url := setField u.image_url d.image_url,
           prompt := setField u.prompt d.prompt,
           is_active := setField u.is_active d.is_active,
           updated_at := some now }

/-- find_one_and_update on the collection list: updates the first document
whose identifier matches, leaves everything else in place. -/
def updateFirstById (oid : String) (u : UpdateData) (now : Nat) : List Doc → List Doc
  | [] => []
  | d :: ds =>
      if d.oid = oid then applySet d u now :: ds
      else d :: updateFirstById oid u now ds

/-- find_one on the asset collection: the first document with the given
identifier. -/
def find_one (s : Store) (oid : String) : Option Doc :=
  s.asset.find? (fun d => d.oid == oid)

/-- The store after find_one_and_update on the asset collection. -/
def find_one_and_update (s : Store) (oid : String) (u : UpdateData) (now : Nat) : Store :=
  { s with asset := updateFirstById oid u now s.asset }

/-- delete_one on the asset collection: removes the first document with the
given identifier; removing nothing is not an error. -/
def delete_one (s : Store) (oid : String) : Store :=
  { s with asset := s.asset.eraseP (fun d => d.oid == oid) }

/-- The response body of the DELETE route. -/
structure DeleteResponse where
  status : String
deriving DecidableEq

/-- update_asset of main.py (PATCH /api/assets/\x7basset_id\x7d).  now is the
utcnow timestamp taken at line 127.  The pair carries the HTTP result and
the store as left behind by the handler. -/
def update_asset (db : Option Store) (asset_id : String) (patch : AssetUpdate)
    (now : Nat) : Except ApiError AssetOut × Option Store :=
  match db with
  | none => (Except.error ApiError.storeUnavailable, none)
  | some s =>
      match parseObjectId asset_id with
      | none => (Except.error ApiError.invalidIdentifier, some s)
      | some oid =>
          let u := effectiveFields patch
          if isEmptyUpdate u then (Except.error ApiError.badRequest, some s)
          else
            let s2 := find_one_and_update s oid u now
            match find_one s2 oid with
            | none => (Except.error ApiError.notFound, some s2)
            | some doc =>
                match serialize_asset doc with
                | some out => (Except.ok out, some s2)
                | none => (Except.error ApiError.serverError, some s2)

/-- delete_asset of main.py (DELETE /api/assets/\x7basset_id\x7d). -/
def delete_asset (db : Option Store) (asset_id : String) :
    Except ApiError DeleteResponse × Option Store :=
  match db with
  | none => (Except.error ApiError.storeUnavailable, none)
  | some s =>
      match parseObjectId asset_id with
      | none => (Except.error ApiError.invalidIdentifier, some s)
      | some oid => (Except.ok { status := "ok" }, some (delete_one s oid))

/-- create_asset of main.py (POST /api/assets): inserts, re-reads the
document by the generated identifier, serializes it. -/
def create_asset (db : Option Store) (asset : AssetIn) :
    Except ApiError AssetOut × Option Store :=
  match db with
  | none => (Except.error ApiError.storeUnavailable, none)
  | some s =>
      let r := create_document s asset
      (serialize_lookup (find_one r.2 r.1), some r.2)

/-- The observable behaviour of the db handle needed by the /test route: its
name and the outcome of list_collection_names, which either yields the
collection names or raises with some message. -/
structure DbHandle where
  name : String
  listCollectionNames : Except String (List String)

/-- The diagnostic response dictionary of the /test route, with its six
fixed keys. -/
structure DiagResponse where
  backend : String
  database : String
  database_url : Option String
  database_name : Option String
  connection_status : String
  collections : List String
deriving DecidableEq

/-- Truncation `str(e)[:50]` applied to an exception message. -/
def cap50 (e : String) : String :=
  String.mk (e.data.take 50)

/-- test_database of main.py (GET /test).  urlSet tells whether the
DATABASE_URL environment variable is set. -/
def test_database (db : Option DbHandle) (urlSet : Bool) : DiagResponse :=
  match db with
  | none =>
      { backend := "✅ Running", database := "⚠️  Available but not initialized",
        database_url := none, database_name := none,
        connection_status := "Not Connected", collections := [] }
  | some h =>
      let base : DiagResponse :=
        { backend := "✅ Running", database := "✅ Available",
          database_url := some (if urlSet then "✅ Set" else "❌ Not Set"),
          database_name := some h.name,
          connection_status := "Connected", collections := [] }
      match h.listCollectionNames with
      | Except.ok cols =>
          { base with collections := cols.take 10,
                      database := "✅ Connected & Working" }
      | Except.error e =>
          { base with database := String.append "⚠️  Connected but Error: " (cap50 e) }

/-! ## Helper definitions and lemmas for the claims -/

/-- The store produced by seeding an empty collection when the identifier
counter stands at n. -/
def seededStore (n : Nat) : Store :=
  demoList.foldl (fun st d => (create_document st d).2) { asset := [], nextId := n }

/-- The serialized response of a seed on an empty collection when the
identifier counter stands at n. -/
def seedOuts (n : Nat) : List AssetOut :=
  (List.range 8).map (fun i =>
    { id := genId (n + i), title := String.append "Sample #" (toString (i + 1)),
      image_url := demoImageUrl, prompt := demoPromptText, is_active := true })

/-! ## Theorems for the claims -/

/-- Claim C1: the seed operation is idempotent.  On an empty asset
collection it inserts exactly 8 demo records and returns the first 24
records; on a non-empty collection it inserts nothing and returns the first
24 existing records as-is, so a second seed after a first successful seed
returns the same response and leaves the store unchanged. -/
theorem seed_assets_idempotent :
    (∀ s : Store, s.asset = [] →
        ∃ outs s2, seed_assets (some s) = (Except.ok outs, some s2) ∧
          s2.asset.length = 8 ∧
          seed_assets (some s2) = (Except.ok outs, some s2)) ∧
    (∀ s : Store, s.asset ≠ [] →
        seed_assets (some s) = (serializeAll (s.asset.take 24), some s)) := by
  constructor
  · rintro ⟨l, n⟩ h
    dsimp only at h
    subst h
    exact ⟨seedOuts n, seededStore n, rfl, rfl, rfl⟩
  · rintro ⟨l, n⟩ h
    cases l with
    | nil => exact absurd rfl h
    | cons d ds => rfl

/-- Witness for C1 at the empty store with counter 0. -/
theorem seed_assets_idempotent_witness :
    ∃ outs s2, seed_assets (some { asset := [], nextId := 0 }) = (Except.ok outs, some s2) ∧
      s2.asset.length = 8 ∧
      seed_assets (some s2) = (Except.ok outs, some s2) :=
  seed_assets_idempotent.1 { asset := [], nextId := 0 } rfl

/-- Claim C3: whenever serialization succeeds, the output carries exactly
the five fields id, title, image_url, prompt, is_active, each copied from
the stored document; is_active defaults to true when the stored document
lacks it; the store-internal updated_at field never influences the output;
and an AssetOut is completely determined by those five fields (it has no
further components). -/
theorem serialize_asset_contract (doc : Doc) (out : AssetOut)
    (h : serialize_asset doc = some out) :
    out.id = doc.oid ∧ doc.title = some out.title ∧
    doc.image_url = some out.image_url ∧ doc.prompt = some out.prompt ∧
    out.is_active = doc.is_active.getD true ∧
    (doc.is_active = none → out.is_active = true) ∧
    (∀ t : Option Nat, serialize_asset { doc with updated_at := t } = some out) ∧
    (∀ o1 o2 : AssetOut, o1.id = o2.id → o1.title = o2.title →
        o1.image_url = o2.image_url → o1.prompt = o2.prompt →
        o1.is_active = o2.is_active → o1 = o2) := by
  obtain ⟨i, t, u, p, a, ua⟩ := doc
  rcases t with _ | tv <;> rcases u with _ | uv <;> rcases p with _ | pv <;>
    simp only [serialize_asset] at h
  all_goals try exact Option.noConfusion h
  injection h with h
  subst h
  refine ⟨rfl, rfl, rfl, rfl, rfl, ?_, fun t => rfl, ?_⟩
  · intro ha
    subst ha
    rfl
  · intro o1 o2 h1 h2 h3 h4 h5
    cases o1
    cases o2
    dsimp only at h1 h2 h3 h4 h5
    subst h1 h2 h3 h4 h5
    rfl

/-- A concrete stored document whose is_active field is absent. -/
def docNoActive : Doc :=
  { oid := "a", title := some "t", image_url := some "u", prompt := some "p",
    is_active := none, updated_at := none }

/-- The serialization of docNoActive. -/
def outNoActive : AssetOut :=
  { id := "a", title := "t", image_url := "u", prompt := "p", is_active := true }

/-- Witness for C3 at a concrete document lacking is_active. -/
theorem serialize_asset_contract_witness :
    serialize_asset docNoActive = some outNoActive ∧ outNoActive.is_active = true :=
  ⟨rfl, (serialize_asset_contract docNoActive outNoActive rfl).2.2.2.2.2.1 rfl⟩

/-- Claim C10: the serializer is not total.  A document missing title,
image_url or prompt fails to serialize, and serializing the result of a
failed lookup (the absent-document case of the re-read after POST
/api/assets) produces the unhandled server error, which carries HTTP 500
and is none of the four specified error categories. -/
theorem serialize_asset_not_total :
    (∀ d : Doc, d.title = none ∨ d.image_url = none ∨ d.prompt = none →
        serialize_asset d = none) ∧
    serialize_lookup none = Except.error ApiError.serverError ∧
    (∀ d : Doc, serialize_asset d = none →
        serialize_lookup (some d) = Except.error ApiError.serverError) ∧
    statusCode ApiError.serverError = 500 ∧
    ApiError.serverError ≠ ApiError.storeUnavailable ∧
    ApiError.serverError ≠ ApiError.invalidIdentifier ∧
    ApiError.serverError ≠ ApiError.badRequest ∧
    ApiError.serverError ≠ ApiError.notFound := by
  refine ⟨?_, rfl, ?_, rfl, by simp, by simp, by simp, by simp⟩
  · intro d h
    obtain ⟨i, t, u, p, a, ua⟩ := d
    rcases t with _ | tv <;> rcases u with _ | uv <;> rcases p with _ | pv <;>
      simp_all [serialize_asset]
  · intro d h
    obtain ⟨i, t, u, p, a, ua⟩ := d
    rcases t with _ | tv <;> rcases u with _ | uv <;> rcases p with _ | pv <;>
      simp_all [serialize_asset, serialize_lookup]

/-- A concrete stored document whose title field is absent. -/
def docNoTitle : Doc :=
  { oid := "a", title := none, image_url := some "u", prompt := some "p",
    is_active := some true, updated_at := none }

/-- Witness for C10 at a concrete document missing its title. -/
theorem serialize_asset_not_total_witness :
    serialize_asset docNoTitle = none :=
  serialize_asset_not_total.1 docNoTitle (Or.inl rfl)

/-- The empty effective field set. -/
def emptyUpdate : UpdateData :=
  { title := none, image_url := none, prompt := none, is_active := none }

/-- A patch payload with no field set at all. -/
def emptyPatch : AssetUpdate :=
  { title := none, image_url := none, prompt := none, is_active := none }

/-- A patch payload that only sets is_active to false. -/
def deactivatePatch : AssetUpdate :=
  { title := none, image_url := none, prompt := none,
    is_active := some (some false) }

/-- A syntactically valid 24-hex-character identifier. -/
def sampleId : String :=
  String.mk (List.replicate 24 'a')

/-- Claim C4: a PATCH whose payload has zero effective (set and non-null)
fields fails with BadRequest (HTTP 400) and the store is left unchanged.
The id must parse (the handler checks the identifier first) and the store
handle must be non-null. -/
theorem update_asset_empty_patch (s : Store) (aid oid : String)
    (patch : AssetUpdate) (now : Nat)
    (hid : parseObjectId aid = some oid)
    (h : effectiveFields patch = emptyUpdate) :
    update_asset (some s) aid patch now = (Except.error ApiError.badRequest, some s) ∧
    statusCode ApiError.badRequest = 400 := by
  refine ⟨?_, rfl⟩
  simp [update_asset, hid, h, isEmptyUpdate, emptyUpdate]

/-- Witness for C4 at a concrete store and the all-unset patch. -/
theorem update_asset_empty_patch_witness :
    update_asset (some { asset := [], nextId := 0 }) sampleId emptyPatch 7 =
      (Except.error ApiError.badRequest, some { asset := [], nextId := 0 }) ∧
    statusCode ApiError.badRequest = 400 :=
  update_asset_empty_patch { asset := [], nextId := 0 } sampleId
    sampleId emptyPatch 7 rfl rfl

/-- Claim C5: a PATCH or DELETE whose id is not a valid identifier shape
fails with InvalidIdentifier (HTTP 400), and the store is handed back
untouched: the handler rejects before any collection call.  The store
handle must be non-null (the null-handle check precedes, see C9). -/
theorem malformed_id_rejected (s : Store) (aid : String) (patch : AssetUpdate)
    (now : Nat) (h : isValidObjectId aid = false) :
    update_asset (some s) aid patch now =
      (Except.error ApiError.invalidIdentifier, some s) ∧
    delete_asset (some s) aid = (Except.error ApiError.invalidIdentifier, some s) ∧
    statusCode ApiError.invalidIdentifier = 400 := by
  have hp : parseObjectId aid = none := by simp [parseObjectId, h]
  refine ⟨?_, ?_, rfl⟩ <;> simp [update_asset, delete_asset, hp]

/-- Witness for C5 at the malformed id "x". -/
theorem malformed_id_rejected_witness :
    update_asset (some { asset := [], nextId := 0 }) "x" deactivatePatch 7 =
      (Except.error ApiError.invalidIdentifier, some { asset := [], nextId := 0 }) ∧
    delete_asset (some { asset := [], nextId := 0 }) "x" =
      (Except.error ApiError.invalidIdentifier, some { asset := [], nextId := 0 }) ∧
    statusCode ApiError.invalidIdentifier = 400 :=
  malformed_id_rejected { asset := [], nextId := 0 } "x" deactivatePatch 7 rfl

/-- Claim C6: DELETE with a valid-shaped identifier answers ok whether or
not a matching record exists; when nothing matches, the store is unchanged,
so deletion is idempotent. -/
theorem delete_asset_ok (s : Store) (aid oid : String)
    (hid : parseObjectId aid = some oid) :
    delete_asset (some s) aid = (Except.ok { status := "ok" }, some (delete_one s oid)) ∧
    ((∀ d ∈ s.asset, d.oid ≠ oid) → delete_one s oid = s) := by
  constructor
  · simp [delete_asset, hid]
  · intro h
    have he : s.asset.eraseP (fun d => d.oid == oid) = s.asset :=
      List.eraseP_of_forall_not (by simpa using h)
    simp [delete_one, he]

/-- Witness for C6: deleting a valid-shaped id from a store that does not
contain it answers ok and leaves the store unchanged. -/
theorem delete_asset_ok_witness :
    delete_asset (some { asset := [], nextId := 0 }) sampleId =
      (Except.ok { status := "ok" },
       some (delete_one { asset := [], nextId := 0 } sampleId)) ∧
    delete_one { asset := [], nextId := 0 } sampleId =
      { asset := [], nextId := 0 } :=
  ⟨(delete_asset_ok { asset := [], nextId := 0 } sampleId sampleId rfl).1,
   (delete_asset_ok { asset := [], nextId := 0 } sampleId sampleId rfl).2
     (by simp)⟩

/-- Claim C7: a PATCH with a valid-shaped id and a non-empty effective field
set fails with NotFound (HTTP 404) when the post-update re-read finds no
record with that identifier. -/
theorem update_asset_notfound (s : Store) (aid oid : String)
    (patch : AssetUpdate) (now : Nat)
    (hid : parseObjectId aid = some oid)
    (hne : isEmptyUpdate (effectiveFields patch) = false)
    (hfind : find_one (find_one_and_update s oid (effectiveFields patch) now) oid = none) :
    update_asset (some s) aid patch now =
      (Except.error ApiError.notFound,
       some (find_one_and_update s oid (effectiveFields patch) now)) ∧
    statusCode ApiError.notFound = 404 := by
  refine ⟨?_, rfl⟩
  simp [update_asset, hid, hne, hfind]

/-- Witness for C7 at the empty store, where no identifier can be found. -/
theorem update_asset_notfound_witness :
    update_asset (some { asset := [], nextId := 0 }) sampleId deactivatePatch 7 =
      (Except.error ApiError.notFound,
       some (find_one_and_update { asset := [], nextId := 0 } sampleId
         (effectiveFields deactivatePatch) 7)) ∧
    statusCode ApiError.notFound = 404 :=
  update_asset_notfound { asset := [], nextId := 0 } sampleId sampleId
    deactivatePatch 7 rfl rfl rfl

/-- Claim C9: in the PATCH and DELETE handlers the null-handle check comes
before identifier parsing: with a null store handle even a malformed id
yields StoreUnavailable (HTTP 500), and InvalidIdentifier (HTTP 400) is
only reachable with a non-null handle. -/
theorem store_check_precedes_id_check :
    (∀ (aid : String) (patch : AssetUpdate) (now : Nat),
        isValidObjectId aid = false →
        update_asset none aid patch now = (Except.error ApiError.storeUnavailable, none) ∧
        delete_asset none aid = (Except.error ApiError.storeUnavailable, none)) ∧
    (∀ (db : Option Store) (aid : String) (patch : AssetUpdate) (now : Nat),
        (update_asset db aid patch now).1 = Except.error ApiError.invalidIdentifier →
        db ≠ none) ∧
    (∀ (db : Option Store) (aid : String),
        (delete_asset db aid).1 = Except.error ApiError.invalidIdentifier →
        db ≠ none) ∧
    statusCode ApiError.storeUnavailable = 500 ∧
    statusCode ApiError.invalidIdentifier = 400 := by
  refine ⟨fun aid patch now _ => ⟨rfl, rfl⟩, ?_, ?_, rfl, rfl⟩
  · intro db aid patch now h hdb
    subst hdb
    simp [update_asset] at h
  · intro db aid h hdb
    subst hdb
    simp [delete_asset] at h

/-- Witness for C9 at the malformed id "x" with a null store handle. -/
theorem store_check_precedes_id_check_witness :
    update_asset none "x" emptyPatch 7 = (Except.error ApiError.storeUnavailable, none) ∧
    delete_asset none "x" = (Except.error ApiError.storeUnavailable, none) :=
  store_check_precedes_id_check.1 "x" emptyPatch 7 rfl

/-- find_one_and_update preserves the number of documents. -/
theorem updateFirstById_length (oid : String) (u : UpdateData) (now : Nat) :
    ∀ l : List Doc, (updateFirstById oid u now l).length = l.length := by
  intro l
  induction l with
  | nil => rfl
  | cons d ds ih =>
      by_cases hd : d.oid = oid <;> simp [updateFirstById, hd, ih]

/-- Each position of the updated collection holds either the original
document or its $set image. -/
theorem updateFirstById_get (oid : String) (u : UpdateData) (now : Nat) :
    ∀ (l : List Doc) (i : Nat) (hi : i < l.length)
      (hi2 : i < (updateFirstById oid u now l).length),
      (updateFirstById oid u now l).get ⟨i, hi2⟩ = l.get ⟨i, hi⟩ ∨
      (updateFirstById oid u now l).get ⟨i, hi2⟩ = applySet (l.get ⟨i, hi⟩) u now := by
  intro l
  induction l with
  | nil => intro i hi _; exact absurd hi (by simp)
  | cons d ds ih =>
      intro i hi hi2
      by_cases hd : d.oid = oid
      · cases i with
        | zero => right; simp [updateFirstById, hd]
        | succ j => left; simp [updateFirstById, hd]
      · cases i with
        | zero => left; simp [updateFirstById, hd]
        | succ j =>
            have hj : j < ds.length := by simpa using hi
            have hj2 : j < (updateFirstById oid u now ds).length := by
              simpa [updateFirstById_length] using hj
            have := ih j hj hj2
            simpa [updateFirstById, hd] using this

/-- A $set whose effective field set holds only is_active rewrites exactly
is_active and updated_at. -/
theorem applySet_only_is_active (d : Doc) (b : Bool) (now : Nat) :
    applySet d { title := none, image_url := none, prompt := none,
                 is_active := some b } now =
      { d with is_active := some b, updated_at := some now } := rfl

/-- The first document matching the identifier is sent to its $set image by
find_one_and_update, and the re-read finds that image. -/
theorem find?_updateFirstById (oid : String) (u : UpdateData) (now : Nat) :
    ∀ (l : List Doc) (d : Doc), l.find? (fun x => x.oid == oid) = some d →
      (updateFirstById oid u now l).find? (fun x => x.oid == oid) =
        some (applySet d u now) := by
  intro l
  induction l with
  | nil => intro d h; exact Option.noConfusion h
  | cons hd tl ih =>
      intro d h
      by_cases hq : hd.oid = oid
      · rw [List.find?_cons_of_pos _ (by simp [hq])] at h
        injection h with h
        subst h
        simp only [updateFirstById, if_pos hq]
        exact List.find?_cons_of_pos _
          (by simp [show (applySet hd u now).oid = hd.oid from rfl, hq])
      · rw [List.find?_cons_of_neg _ (by simp [hq])] at h
        simp only [updateFirstById, if_neg hq]
        rw [List.find?_cons_of_neg _ (by simp [hq])]
        exact ih d h

/-- Whatever the response, a PATCH that passes the identifier and emptiness
checks leaves behind exactly the find_one_and_update image of the store. -/
theorem update_asset_store (s : Store) (aid oid : String) (patch : AssetUpdate)
    (now : Nat) (hoid : parseObjectId aid = some oid)
    (hne : isEmptyUpdate (effectiveFields patch) = false) :
    (update_asset (some s) aid patch now).2 =
      some (find_one_and_update s oid (effectiveFields patch) now) := by
  simp only [update_asset, hoid, hne, Bool.false_eq_true, if_false]
  rcases hf : find_one (find_one_and_update s oid (effectiveFields patch) now) oid
    with _ | doc
  · simp [hf]
  · rcases hs : serialize_asset doc with _ | out <;> simp [hf, hs]

/-- Claim C2: a PATCH whose effective field set holds only is_active changes
only that field and sets updated_at on the matched record; every other
record and every other field, set or unset, is untouched, and in general a
field absent from the effective set is never written by applySet. -/
theorem update_asset_is_active_frame (s : Store) (aid : String)
    (patch : AssetUpdate) (now : Nat) (b : Bool)
    (h : effectiveFields patch = { title := none, image_url := none,
                                   prompt := none, is_active := some b })
    (r : Except ApiError AssetOut) (s2 : Store)
    (hr : update_asset (some s) aid patch now = (r, some s2)) :
    s2.asset.length = s.asset.length ∧
    (∀ (i : Nat) (hi : i < s.asset.length) (hi2 : i < s2.asset.length),
        s2.asset.get ⟨i, hi2⟩ = s.asset.get ⟨i, hi⟩ ∨
        s2.asset.get ⟨i, hi2⟩ =
          { s.asset.get ⟨i, hi⟩ with is_active := some b, updated_at := some now }) ∧
    (∀ oid d, parseObjectId aid = some oid →
        find_one s oid = some d →
        find_one s2 oid = some { d with is_active := some b, updated_at := some now }) ∧
    (∀ (u : UpdateData) (d : Doc) (m : Nat),
        (u.title = none → (applySet d u m).title = d.title) ∧
        (u.image_url = none → (applySet d u m).image_url = d.image_url) ∧
        (u.prompt = none → (applySet d u m).prompt = d.prompt) ∧
        (u.is_active = none → (applySet d u m).is_active = d.is_active)) := by
  have hframe : ∀ (u : UpdateData) (d : Doc) (m : Nat),
      (u.title = none → (applySet d u m).title = d.title) ∧
      (u.image_url = none → (applySet d u m).image_url = d.image_url) ∧
      (u.prompt = none → (applySet d u m).prompt = d.prompt) ∧
      (u.is_active = none → (applySet d u m).is_active = d.is_active) := by
    intro u d m
    obtain ⟨ut, uu, up, ua⟩ := u
    refine ⟨?_, ?_, ?_, ?_⟩ <;> intro hz <;> subst hz <;> rfl
  cases hoid : parseObjectId aid with
  | none =>
      simp only [update_asset, hoid] at hr
      obtain ⟨h1, h2⟩ := Prod.mk.injEq .. ▸ hr
      injection h2 with h2
      subst h2
      exact ⟨rfl, fun i hi hi2 => Or.inl rfl,
        fun oid d hp => Option.noConfusion hp, hframe⟩
  | some oid =>
      have hne : isEmptyUpdate (effectiveFields patch) = false := by
        rw [h]; rfl
      have hsnd := update_asset_store s aid oid patch now hoid hne
      rw [hr] at hsnd
      dsimp only at hsnd
      injection hsnd with hsnd
      rw [h] at hsnd
      subst hsnd
      refine ⟨updateFirstById_length oid _ now s.asset, ?_, ?_, hframe⟩
      · intro i hi hi2
        have hget := updateFirstById_get oid
          { title := none, image_url := none, prompt := none,
            is_active := some b } now s.asset i hi hi2
        rcases hget with h1 | h1
        · exact Or.inl h1
        · exact Or.inr (h1.trans (applySet_only_is_active (s.asset.get ⟨i, hi⟩) b now))
      · intro oid2 d hp hfound
        injection hp with hp
        subst hp
        have hfu := find?_updateFirstById oid
          { title := none, image_url := none, prompt := none,
            is_active := some b } now s.asset d hfound
        exact hfu.trans (congrArg some (applySet_only_is_active d b now))

/-- A concrete stored document carrying the sample identifier. -/
def wDoc : Doc :=
  { oid := sampleId, title := some "t", image_url := some "u", prompt := some "p",
    is_active := some true, updated_at := none }

/-- wDoc after a PATCH that only clears is_active, at timestamp 5. -/
def wDoc2 : Doc :=
  { oid := sampleId, title := some "t", image_url := some "u", prompt := some "p",
    is_active := some false, updated_at := some 5 }

/-- A one-document store holding wDoc. -/
def wStore : Store :=
  { asset := [wDoc], nextId := 1 }

/-- The store left behind by the deactivating PATCH on wStore. -/
def wStore2 : Store :=
  { asset := [wDoc2], nextId := 1 }

/-- The serialized response of the deactivating PATCH on wStore. -/
def wOut : AssetOut :=
  { id := sampleId, title := "t", image_url := "u", prompt := "p",
    is_active := false }

/-- Witness for C2: the deactivating PATCH on the one-document store keeps
the collection size and rewrites the matched document to its is_active and
updated_at image. -/
theorem update_asset_is_active_frame_witness :
    wStore2.asset.length = wStore.asset.length ∧
    find_one wStore2 sampleId = some wDoc2 :=
  ⟨(update_asset_is_active_frame wStore sampleId deactivatePatch 5 false rfl
      (Except.ok wOut) wStore2 rfl).1,
   (update_asset_is_active_frame wStore sampleId deactivatePatch 5 false rfl
      (Except.ok wOut) wStore2 rfl).2.2.1 sampleId wDoc rfl rfl⟩

/-- Claim C8: the diagnostic endpoint is total over every modelled store
state (null handle, connected handle, or a handle whose collection listing
raises): it always answers the fixed-key diagnostic object, its collections
array never exceeds 10 entries, and a caught listing exception becomes a
status string whose exception text is truncated to at most 50 characters. -/
theorem test_database_best_effort :
    (∀ (db : Option DbHandle) (urlSet : Bool),
        (test_database db urlSet).collections.length ≤ 10 ∧
        (test_database db urlSet).backend = "✅ Running") ∧
    (∀ (h : DbHandle) (urlSet : Bool) (e : String),
        h.listCollectionNames = Except.error e →
        (test_database (some h) urlSet).database =
          String.append "⚠️  Connected but Error: " (cap50 e) ∧
        (cap50 e).length ≤ 50) := by
  constructor
  · intro db urlSet
    cases db with
    | none => exact ⟨by simp [test_database], rfl⟩
    | some h =>
        cases hl : h.listCollectionNames with
        | ok cols =>
            constructor
            · simp only [test_database, hl]
              simp [List.length_take]
            · simp [test_database, hl]
        | error e =>
            constructor
            · simp [test_database, hl]
            · simp [test_database, hl]
  · intro h urlSet e hl
    constructor
    · simp [test_database, hl]
    · show (e.data.take 50).length ≤ 50
      simp [List.length_take]

/-- A concrete handle whose collection listing raises. -/
def wBadHandle : DbHandle :=
  { name := "db", listCollectionNames := Except.error "boom" }

/-- Witness for C8 at a handle whose collection listing raises. -/
theorem test_database_best_effort_witness :
    (test_database (some wBadHandle) true).database =
      String.append "⚠️  Connected but Error: " (cap50 "boom") ∧
    (cap50 "boom").length ≤ 50 :=
  test_database_best_effort.2 wBadHandle true "boom" rfl

end AssetsApi
